import Mathlib

/-!
Verification of the `15-Large_Data.ipynb` notebook (the only source file of
this repository) against its natural-language specification.

Part 1 embeds the three helper functions defined in the notebook's first code
cell (`random_walk`, `random_cov`, `time_series`) as pure functions over the
real numbers.  Random draws made inside the Python code via
`np.random.normal`, `np.random.randn` and `np.random.standard_normal` are
passed as explicit arguments, so each helper is modelled as a deterministic
function of its numeric arguments together with the drawn samples.

Part 2 embeds the structure of the notebook itself: the ordered list of its
37 cells, each described by the names it defines, binds and reads, the
operations it calls, the attribute mutations and global-setting calls it
performs, whether it seeds the random number generator, whether it produces
an inline plot, and whether it touches files or the network.  A small
operational semantics over an abstract state (RNG, environment, file system)
lets us state frame and determinism properties of a top-to-bottom run.
-/

/-- Partial sums with a running accumulator; `cumsum l = cumsumFrom 0 l`
mirrors `np.cumsum`. -/
def cumsumFrom (acc : ℝ) : List ℝ → List ℝ
  | [] => []
  | x :: xs => (acc + x) :: cumsumFrom (acc + x) xs

/-- `np.cumsum` on a one-dimensional array. -/
def cumsum (l : List ℝ) : List ℝ := cumsumFrom 0 l

/-- Entry `k` of the full discrete convolution of `a` and `v`:
`(a * v)[k] = sum over i of a[i] * v[k - i]`, with out-of-range accesses
contributing `0`. -/
def convEntry (a v : List ℝ) (k : ℕ) : ℝ :=
  ∑ i ∈ Finset.range a.length, a.getD i 0 * (if i ≤ k then v.getD (k - i) 0 else 0)

/-- `np.convolve(a, v)` in its default "full" mode: the output has
`a.length + v.length - 1` entries. -/
def convolve (a v : List ℝ) : List ℝ :=
  (List.range (a.length + v.length - 1)).map (convEntry a v)

/-- The deterministic wobble array `0.1*np.sin(0.1*np.array(range(n-1+f)))`
added to the x coordinates inside `random_walk`. -/
noncomputable def wobble (n f : ℕ) : List ℝ :=
  (List.range (n - 1 + f)).map (fun i : ℕ => 0.1 * Real.sin (0.1 * (i : ℝ)))

/-- The notebook's `random_walk(n, f)`: a 2D random walk smoothed with an
averaging filter of length `f`.  The normal draws of size `n` (`ax`, `ay`)
and the measurement-noise draws of size `n-1+f` (`nx`, `ny`) are explicit
arguments; the result models `np.column_stack([xs, ys])` as a list of
coordinate pairs. -/
noncomputable def random_walk (n f : ℕ) (ax ay nx ny : List ℝ) : List (ℝ × ℝ) :=
  let filt := List.replicate f ((1 : ℝ) / (f : ℝ))
  let xs0 := cumsum (convolve ax filt)
  let ys0 := cumsum (convolve ay filt)
  let xs1 := List.zipWith (· + ·) xs0 (wobble n f)
  let xs := List.zipWith (· + ·) xs1 nx
  let ys := List.zipWith (· + ·) ys0 ny
  xs.zip ys

/-- The notebook's `random_cov()`: `A = np.random.randn(2,2)` is the explicit
argument and the function returns `np.dot(A, A.T)`. -/
def random_cov (A : Matrix (Fin 2) (Fin 2) ℝ) : Matrix (Fin 2) (Fin 2) ℝ :=
  A * A.transpose

/-- `np.linspace(a, b, N)`: `N` evenly spaced samples from `a` to `b`
(for `N = 1` the step's denominator vanishes and the sole sample is `a`). -/
noncomputable def linspace (a b : ℝ) (N : ℕ) : List ℝ :=
  (List.range N).map (fun i : ℕ => a + (b - a) * (i : ℝ) / ((N : ℝ) - 1))

/-- The notebook's `time_series(T, N, mu, sigma, S0)`: geometric Brownian
motion.  The standard-normal draws `W` of size `N` are an explicit
argument. -/
noncomputable def time_series (T : ℝ) (N : ℕ) (mu sigma S0 : ℝ) (W : List ℝ) : List ℝ :=
  let dt : ℝ := T / N
  let t := linspace 0 T N
  let W2 := (cumsum W).map (fun w => w * Real.sqrt dt)
  let X := List.zipWith (fun ti wi => (mu - 0.5 * sigma ^ 2) * ti + sigma * wi) t W2
  X.map (fun x => S0 * Real.exp x)

/-- Structural description of one notebook cell: which notebook-level names
it defines (functions) and binds (data), which previously bound names it
reads, which HoloViews/Datashader operations it calls, the external modules
it imports, the attribute assignments and global-setting calls it performs,
whether it calls `np.random.seed`, whether its last expression displays an
inline plot, and whether it contains error handling or touches files or the
network. -/
structure CellSpec where
  isCode : Bool := false
  imports : List String := []
  defines : List String := []
  binds : List String := []
  reads : List String := []
  callsOps : List String := []
  attrMutations : List String := []
  settingCalls : List String := []
  seedsRng : Option ℕ := none
  producesPlot : Bool := false
  hasTryExceptRaise : Bool := false
  hasValidationBranch : Bool := false
  fileRead : Bool := false
  fileWrite : Bool := false
  netAccess : Bool := false
deriving Repr, DecidableEq

/-- A markdown (prose) cell: no code at all. -/
def mdCell : CellSpec := {}

/-- The 37 cells of `examples/user_guide/15-Large_Data.ipynb`, in order. -/
def notebookCells : List CellSpec :=
  [ mdCell,                                   -- 0: title and introduction
    { isCode := true,                         -- 1: imports, parameters, helpers
      imports := ["numpy", "holoviews", "datashader",
                  "holoviews.operation.datashader", "holoviews.operation"],
      defines := ["random_walk", "random_cov", "time_series"],
      attrMutations := ["decimate.max_samples", "dynspread.max_px",
                        "dynspread.threshold"],
      settingCalls := ["hv.extension"] },
    mdCell,                                   -- 2: live-server alert
    mdCell,                                   -- 3: principles of datashading
    { isCode := true,                         -- 4: small points + paths
      binds := ["points", "paths"], reads := ["random_walk"],
      seedsRng := some 1, producesPlot := true },
    mdCell,                                   -- 5: interactivity discussion
    { isCode := true,                         -- 6: one million points, display commented out
      binds := ["points", "paths"], reads := ["random_walk"],
      seedsRng := some 1 },
    mdCell,                                   -- 7: HoloViews elements as containers
    { isCode := true,                         -- 8: decimate and datashade comparison
      reads := ["points", "paths"], callsOps := ["decimate", "datashade"],
      producesPlot := true },
    mdCell,                                   -- 9: decimation discussion
    { isCode := true,                         -- 10: rasterize, shade, datashade
      reads := ["points"], callsOps := ["rasterize", "shade", "datashade"],
      producesPlot := true },
    mdCell,                                   -- 11: aggregation explanation
    mdCell,                                   -- 12: spreading
    { isCode := true,                         -- 13: dynspread on points
      reads := ["points"], callsOps := ["datashade", "dynspread"],
      producesPlot := true },
    mdCell,                                   -- 14: zoom discussion
    { isCode := true,                         -- 15: dynspread on paths
      reads := ["paths"], callsOps := ["datashade", "dynspread"],
      producesPlot := true },
    mdCell,                                   -- 16: multidimensional plots
    { isCode := true,                         -- 17: gaussians and lines overlays
      defines := ["rand_gauss2d"],
      binds := ["kdims", "num_ks", "gaussians", "lines", "gaussspread",
                "linespread"],
      reads := ["random_cov", "time_series"],
      callsOps := ["dynspread", "datashade"],
      seedsRng := some 3, producesPlot := true },
    mdCell,                                   -- 18: legends discussion
    { isCode := true,                         -- 19: color key legend
      imports := ["datashader.colors"],
      binds := ["gaussspread", "color_key", "color_points"],
      reads := ["gaussians", "num_ks"],
      callsOps := ["dynspread", "datashade"], producesPlot := true },
    mdCell,                                   -- 20: dummy-point caveat
    mdCell,                                   -- 21: working with time series
    mdCell,                                   -- 22: datashading time series
    { isCode := true,                         -- 23: datashaded curve of dates
      imports := ["pandas"],
      binds := ["dates", "curve"], reads := ["time_series"],
      callsOps := ["datashade"], producesPlot := true },
    mdCell,                                   -- 24: rolling-mean discussion
    { isCode := true,                         -- 25: rolling mean and outliers
      imports := ["holoviews.operation.timeseries"],
      binds := ["smoothed", "outliers", "ds_curve", "spread"],
      reads := ["curve"],
      callsOps := ["rolling", "rolling_outlier_std", "datashade", "dynspread"],
      producesPlot := true },
    mdCell,                                   -- 26: static-export caveat
    { isCode := true,                         -- 27: hover with QuadMesh
      imports := ["holoviews.streams"],
      binds := ["fixed_hover", "dynamic_hover"], reads := ["points"],
      callsOps := ["datashade", "rasterize"], producesPlot := true },
    mdCell,                                   -- 28: hover discussion
    mdCell,                                   -- 29: element types supported
    { isCode := true,                         -- 30: gallery of shadeable elements
      binds := ["N", "pts", "x", "y", "xs", "ys", "z", "r", "g", "b",
                "opts2", "tri", "shadeable", "rasterizable"],
      callsOps := ["datashade", "dynspread", "rasterize", "contours"],
      settingCalls := ["hv.output", "opts.defaults"],
      seedsRng := some 12, producesPlot := true },
    mdCell,                                   -- 31: RGB and HSV discussion
    { isCode := true,                         -- 32: unshaded comparison layout
      binds := ["rgb_opts"], reads := ["shadeable", "rasterizable"],
      producesPlot := true },
    mdCell,                                   -- 33: backend-switch discussion
    { isCode := true,                         -- 34: container types
      binds := ["curves", "supported"], reads := ["pts"],
      callsOps := ["datashade"], settingCalls := ["hv.output"],
      producesPlot := true },
    { isCode := true,                         -- 35: NdLayout
      reads := ["curves"], callsOps := ["datashade", "dynspread"],
      producesPlot := true },
    mdCell ]                                  -- 36: optimizing performance

/-- Number of cells in the notebook. -/
def numCells : ℕ := notebookCells.length

/-- The cell at position `i` (a blank markdown cell out of range). -/
def cellAt (i : ℕ) : CellSpec := notebookCells.getD i mdCell

/-- Modules whose import would give the notebook access to files, sockets or
processes; the embedded import lists are checked against this list. -/
def ioModules : List String :=
  ["os", "io", "sys", "pathlib", "shutil", "socket", "subprocess",
   "urllib", "requests", "pickle", "json", "csv", "sqlite3", "glob"]

/-- Abstract state of a top-to-bottom notebook run: the RNG state, the
bindings made so far (names to abstract values) and the file system. -/
structure NbState where
  rng : ℕ
  env : List (String × ℕ)
  fs : ℕ
deriving Repr, DecidableEq

/-- Look a name up in the abstract environment. -/
def lookupEnv (e : List (String × ℕ)) (x : String) : ℕ :=
  ((e.find? (fun p => p.1 == x)).map Prod.snd).getD 0

/-- Execute one cell.  `interp` abstracts everything the external libraries
do: given the cell index, the values of the names the cell reads, the RNG
state after any reseeding, and the file-system content the cell reads (`0`
when it reads none), it returns the value the cell computes and the next RNG
state.  A markdown cell does nothing. -/
def stepCell (interp : ℕ → List ℕ → ℕ → ℕ → ℕ × ℕ) (i : ℕ) (c : CellSpec)
    (s : NbState) : NbState :=
  if c.isCode then
    let r0 := c.seedsRng.getD s.rng
    let ins := c.reads.map (lookupEnv s.env)
    let fsIn := if c.fileRead then s.fs else 0
    let out := interp i ins r0 fsIn
    { rng := out.2,
      env := (c.defines ++ c.binds).map (fun x => (x, out.1)) ++ s.env,
      fs := if c.fileWrite then out.1 else s.fs }
  else s

/-- Execute a list of indexed cells in order. -/
def runCells (interp : ℕ → List ℕ → ℕ → ℕ → ℕ × ℕ) :
    List (ℕ × CellSpec) → NbState → NbState
  | [], s => s
  | ic :: rest, s => runCells interp rest (stepCell interp ic.1 ic.2 s)

/-- Execute the whole notebook top to bottom from an initial state. -/
def runNotebook (interp : ℕ → List ℕ → ℕ → ℕ → ℕ × ℕ) (s : NbState) : NbState :=
  runCells interp notebookCells.enum s

/-- How many cells after position `i` read the name `x`. -/
def readersAfter (x : String) (i : ℕ) : ℕ :=
  ((List.range numCells).filter (fun j => i < j && (cellAt j).reads.contains x)).length

/-- How many cells after position `i` call the operation `op`. -/
def opUsersAfter (op : String) (i : ℕ) : ℕ :=
  ((List.range numCells).filter
    (fun j => i < j && (cellAt j).callsOps.contains op)).length

/-- The claim that no name bound in one code cell is read by a later cell. -/
def noLaterReads : Bool :=
  (List.range numCells).all (fun j =>
    (List.range j).all (fun i =>
      (cellAt i).binds.all (fun x => !((cellAt j).reads.contains x))))

/-- The claim that every code cell produces an inline plot. -/
def allCodeCellsPlot : Bool :=
  (List.range numCells).all (fun i => !(cellAt i).isCode || (cellAt i).producesPlot)

/-- The claim that no cell mutates module- or class-level state outside the
names it binds (neither by attribute assignment nor by a global-setting
call). -/
def noGlobalMutation : Bool :=
  notebookCells.all (fun c => c.attrMutations.isEmpty && c.settingCalls.isEmpty)

/-! ### Helper lemmas about the operational model -/

/-- A cell that performs no file write leaves the file system unchanged. -/
theorem stepCell_fs_eq (interp : ℕ → List ℕ → ℕ → ℕ → ℕ × ℕ) (i : ℕ)
    (c : CellSpec) (s : NbState) (h : c.fileWrite = false) :
    (stepCell interp i c s).fs = s.fs := by
  unfold stepCell
  by_cases hc : c.isCode
  · simp [hc, h]
  · simp [hc]

/-- Running cells none of which writes a file leaves the file system
unchanged. -/
theorem runCells_fs_eq (interp : ℕ → List ℕ → ℕ → ℕ → ℕ × ℕ) :
    ∀ (l : List (ℕ × CellSpec)) (s : NbState),
      (∀ p ∈ l, p.2.fileWrite = false) → (runCells interp l s).fs = s.fs := by
  intro l
  induction l with
  | nil => intro s _; rfl
  | cons ic rest ih =>
    intro s h
    have h1 : ic.2.fileWrite = false := h ic (List.mem_cons_self ic rest)
    have h2 : ∀ p ∈ rest, p.2.fileWrite = false :=
      fun p hp => h p (List.mem_cons_of_mem ic hp)
    calc (runCells interp (ic :: rest) s).fs
        = (runCells interp rest (stepCell interp ic.1 ic.2 s)).fs := rfl
      _ = (stepCell interp ic.1 ic.2 s).fs := ih _ h2
      _ = s.fs := stepCell_fs_eq interp ic.1 ic.2 s h1

/-- A cell that reads no file computes the same RNG state and bindings from
any two states agreeing on RNG and bindings, whatever their file systems. -/
theorem stepCell_indep (interp : ℕ → List ℕ → ℕ → ℕ → ℕ × ℕ) (i : ℕ)
    (c : CellSpec) (s₁ s₂ : NbState) (h : c.fileRead = false)
    (hr : s₁.rng = s₂.rng) (he : s₁.env = s₂.env) :
    (stepCell interp i c s₁).rng = (stepCell interp i c s₂).rng ∧
      (stepCell interp i c s₁).env = (stepCell interp i c s₂).env := by
  unfold stepCell
  by_cases hc : c.isCode
  · simp [hc, h, hr, he]
  · simp [hc, hr, he]

/-- Running cells none of which reads a file from any two states agreeing on
RNG and bindings yields the same RNG state and the same bindings. -/
theorem runCells_indep (interp : ℕ → List ℕ → ℕ → ℕ → ℕ × ℕ) :
    ∀ (l : List (ℕ × CellSpec)) (s₁ s₂ : NbState),
      (∀ p ∈ l, p.2.fileRead = false) → s₁.rng = s₂.rng → s₁.env = s₂.env →
      (runCells interp l s₁).rng = (runCells interp l s₂).rng ∧
        (runCells interp l s₁).env = (runCells interp l s₂).env := by
  intro l
  induction l with
  | nil => intro s₁ s₂ _ hr he; exact ⟨hr, he⟩
  | cons ic rest ih =>
    intro s₁ s₂ h hr he
    have h1 : ic.2.fileRead = false := h ic (List.mem_cons_self ic rest)
    have h2 : ∀ p ∈ rest, p.2.fileRead = false :=
      fun p hp => h p (List.mem_cons_of_mem ic hp)
    have hstep := stepCell_indep interp ic.1 ic.2 s₁ s₂ h1 hr he
    exact ih _ _ h2 hstep.1 hstep.2

/-! ### Claims about the notebook's structure -/

/-- Claim C2 counterexample: the claim says that no name bound to a dataset
in one code cell is read by a later code cell; but `points` is bound in the
cell at position 4 and read by the cell at position 8 (the
`decimate(points) + datashade(points) + datashade(paths)` cell), so the
bound-then-never-read property fails on the notebook. -/
theorem claim2_counterexample :
    "points" ∈ (cellAt 4).binds ∧ "points" ∈ (cellAt 8).reads ∧ 4 < 8 ∧
      noLaterReads = false := by
  decide

/-- Claim C2 (amended): dataset names are not discarded after the cell that
binds them: `points` (rebound in the million-point cell at position 6) is
read by four later cells, and `paths`, `gaussians` and `curve` are each read
by at least one later cell. -/
theorem claim2_theorem :
    ("points" ∈ (cellAt 6).binds ∧ readersAfter "points" 6 = 4) ∧
      ("paths" ∈ (cellAt 6).binds ∧ 1 ≤ readersAfter "paths" 6) ∧
      ("gaussians" ∈ (cellAt 17).binds ∧ 1 ≤ readersAfter "gaussians" 17) ∧
      ("curve" ∈ (cellAt 23).binds ∧ 1 ≤ readersAfter "curve" 23) := by
  decide

/-- Claim C3 counterexample: the claim says every code cell, executed top to
bottom, produces an inline plot; but the first code cell (position 1: imports,
parameter settings and helper definitions) and the code cell at position 6
(whose only plotting expression is commented out as `#points + paths`) are
code cells that produce no plot. -/
theorem claim3_counterexample :
    (cellAt 1).isCode = true ∧ (cellAt 1).producesPlot = false ∧
      (cellAt 6).isCode = true ∧ (cellAt 6).producesPlot = false ∧
      allCodeCellsPlot = false := by
  decide

/-- Claim C3 (amended): the notebook is one linear sequence of cells, and
every code cell except the setup cell at position 1 and the cell at
position 6 with its display expression commented out produces an inline
plot. -/
theorem claim3_theorem :
    ((List.range numCells).all
        (fun i => !(cellAt i).isCode || i == 1 || i == 6 ||
          (cellAt i).producesPlot)) = true ∧
      (cellAt 1).producesPlot = false ∧ (cellAt 6).producesPlot = false := by
  decide

/-- Claim C4 counterexample: the claim says executing any code cell leaves
unchanged all module- and class-level state outside the names the cell
binds; but the first code cell assigns `decimate.max_samples`,
`dynspread.max_px` and `dynspread.threshold` — class-level parameters of the
external operations — and the later cell at position 8 calls `decimate`,
so the no-global-mutation property fails on the notebook. -/
theorem claim4_counterexample :
    (cellAt 1).attrMutations =
        ["decimate.max_samples", "dynspread.max_px", "dynspread.threshold"] ∧
      ((cellAt 8).callsOps.contains "decimate") = true ∧ 1 < 8 ∧
      noGlobalMutation = false := by
  decide

/-- Claim C4 (amended): the first code cell does mutate class-level state of
the external operations (`decimate.max_samples`, `dynspread.max_px`,
`dynspread.threshold`), and later cells depend on those mutations: one later
cell calls `decimate` and seven later cells call `dynspread`; no cell other
than the first performs an attribute mutation. -/
theorem claim4_theorem :
    (cellAt 1).attrMutations =
        ["decimate.max_samples", "dynspread.max_px", "dynspread.threshold"] ∧
      opUsersAfter "decimate" 1 = 1 ∧ opUsersAfter "dynspread" 1 = 7 ∧
      ((List.range numCells).all
        (fun i => i == 1 || (cellAt i).attrMutations.isEmpty)) = true := by
  decide

/-- Claim C5: no cell of the notebook contains a try/except/raise construct
or an input-validation branch — in particular the first cell, which defines
the helper functions `random_walk`, `random_cov` and `time_series`, contains
no handler, so the helpers propagate failures unhandled. -/
theorem claim5_theorem :
    (notebookCells.all
        (fun c => !c.hasTryExceptRaise && !c.hasValidationBranch)) = true ∧
      (cellAt 1).defines = ["random_walk", "random_cov", "time_series"] := by
  decide

/-- Claim C6: no cell reads or writes a file, opens a socket, or imports an
I/O module, and consequently running the whole notebook under the
operational model leaves the file system of the state unchanged, whatever
the external libraries compute. -/
theorem claim6_theorem :
    (notebookCells.all
        (fun c => !c.fileRead && !c.fileWrite && !c.netAccess)) = true ∧
      (notebookCells.all
        (fun c => c.imports.all (fun m => !(ioModules.contains m)))) = true ∧
      ∀ (interp : ℕ → List ℕ → ℕ → ℕ → ℕ × ℕ) (s : NbState),
        (runNotebook interp s).fs = s.fs := by
  refine ⟨by decide, by decide, ?_⟩
  intro interp s
  exact runCells_fs_eq interp notebookCells.enum s (by decide)

/-- Claim C7: the datasets are generated from seeded pseudo-random
generators and deterministic transforms with no external input: the cells
binding `points`/`paths` seed the RNG with 1, the gaussians cell seeds it
with 3, no cell reads a file or the network, and two top-to-bottom runs of
the notebook started from the same RNG state produce the same bindings and
the same final RNG state, whatever file systems they run over and whatever
the external libraries compute. -/
theorem claim7_theorem :
    ((cellAt 4).seedsRng = some 1 ∧ (cellAt 6).seedsRng = some 1 ∧
      (cellAt 17).seedsRng = some 3) ∧
      (notebookCells.all (fun c => !c.fileRead && !c.netAccess)) = true ∧
      ∀ (interp : ℕ → List ℕ → ℕ → ℕ → ℕ × ℕ) (r fs₁ fs₂ : ℕ),
        (runNotebook interp (NbState.mk r [] fs₁)).env =
            (runNotebook interp (NbState.mk r [] fs₂)).env ∧
          (runNotebook interp (NbState.mk r [] fs₁)).rng =
            (runNotebook interp (NbState.mk r [] fs₂)).rng := by
  refine ⟨by decide, by decide, ?_⟩
  intro interp r fs₁ fs₂
  have h := runCells_indep interp notebookCells.enum
    (NbState.mk r [] fs₁) (NbState.mk r [] fs₂) (by decide) rfl rfl
  exact ⟨h.2, h.1⟩

/-! ### Lemmas about the helper-function embeddings -/

theorem cumsumFrom_length (acc : ℝ) (l : List ℝ) :
    (cumsumFrom acc l).length = l.length := by
  induction l generalizing acc with
  | nil => rfl
  | cons x xs ih => simp [cumsumFrom, ih]

theorem cumsum_length (l : List ℝ) : (cumsum l).length = l.length :=
  cumsumFrom_length 0 l

theorem convolve_length (a v : List ℝ) :
    (convolve a v).length = a.length + v.length - 1 := by
  simp [convolve]

theorem wobble_length (n f : ℕ) : (wobble n f).length = n - 1 + f := by
  rw [wobble, List.length_map, List.length_range]

/-- Claim C8: for `n ≥ 1` and `f ≥ 1`, with normal draws of size `n` and
noise draws of size `n-1+f` as the code constructs them, `random_walk n f`
returns a list of exactly `n + f - 1` coordinate pairs. -/
theorem claim8_theorem (n f : ℕ) (ax ay nx ny : List ℝ) (hn : 1 ≤ n)
    (hf : 1 ≤ f) (hax : ax.length = n) (hay : ay.length = n)
    (hnx : nx.length = n - 1 + f) (hny : ny.length = n - 1 + f) :
    (random_walk n f ax ay nx ny).length = n + f - 1 := by
  simp only [random_walk, List.length_zip, List.length_zipWith, cumsum_length,
    convolve_length, wobble_length, List.length_replicate, hax, hay, hnx, hny]
  omega

/-- Witness for claim C8 at `n = 2`, `f = 1` with zero draws. -/
theorem claim8_witness :
    1 ≤ 2 ∧ 1 ≤ 1 ∧ [(0 : ℝ), 0].length = 2 ∧ [(0 : ℝ), 0].length = 2 - 1 + 1 ∧
      (random_walk 2 1 [0, 0] [0, 0] [0, 0] [0, 0]).length = 2 + 1 - 1 :=
  ⟨by decide, by decide, rfl, rfl,
    claim8_theorem 2 1 [0, 0] [0, 0] [0, 0] [0, 0] (by decide) (by decide)
      rfl rfl rfl rfl⟩

/-- Claim C9: every matrix `random_cov` returns is symmetric and positive
semidefinite: it equals its own transpose and `x . (M x)` is nonnegative for
every vector `x`. -/
theorem claim9_theorem (A : Matrix (Fin 2) (Fin 2) ℝ) :
    (random_cov A).transpose = random_cov A ∧
      ∀ x : Fin 2 → ℝ, 0 ≤ Matrix.dotProduct x (Matrix.mulVec (random_cov A) x) := by
  constructor
  · simp [random_cov, Matrix.transpose_mul, Matrix.transpose_transpose]
  · intro x
    have h := Matrix.posSemidef_self_mul_conjTranspose A
    rw [Matrix.conjTranspose_eq_transpose_of_trivial] at h
    simpa [random_cov, star_trivial] using h.2 x

/-- Claim C10: for `N ≥ 1`, `S0 > 0` and standard-normal draws of size `N`
as the code makes them, `time_series` returns exactly `N` values (in
particular a nonempty list), each strictly positive. -/
theorem claim10_theorem (T mu sigma S0 : ℝ) (N : ℕ) (W : List ℝ)
    (hN : 1 ≤ N) (hS0 : 0 < S0) (hW : W.length = N) :
    (time_series T N mu sigma S0 W).length = N ∧
      time_series T N mu sigma S0 W ≠ [] ∧
      ∀ s ∈ time_series T N mu sigma S0 W, 0 < s := by
  have hlen : (time_series T N mu sigma S0 W).length = N := by
    simp only [time_series, linspace, List.length_map, List.length_zipWith,
      List.length_range, cumsum_length, hW]
    omega
  refine ⟨hlen, ?_, ?_⟩
  · intro hnil
    rw [hnil] at hlen
    simp at hlen
    omega
  · intro s hs
    simp only [time_series, List.mem_map] at hs
    obtain ⟨x, _, hx⟩ := hs
    rw [← hx]
    exact mul_pos hS0 (Real.exp_pos x)

/-- Witness for claim C10 at `T = 1`, `N = 1`, `mu = sigma = 0`, `S0 = 1`. -/
theorem claim10_witness :
    1 ≤ 1 ∧ (0 : ℝ) < 1 ∧ [(0 : ℝ)].length = 1 ∧
      ((time_series 1 1 0 0 1 [0]).length = 1 ∧
        time_series 1 1 0 0 1 [0] ≠ [] ∧
        ∀ s ∈ time_series 1 1 0 0 1 [0], 0 < s) :=
  ⟨by decide, by norm_num, rfl,
    claim10_theorem 1 0 0 1 1 [0] (by decide) (by norm_num) rfl⟩

/-! ### Claim C1: the helpers compute their own algorithms -/

theorem convolve_singleton_one (a : List ℝ) : convolve a [(1 : ℝ)] = a := by
  apply List.ext_getElem
  · simp [convolve]
  · intro k h1 h2
    have hk : k < a.length := by
      simpa [convolve] using h1
    simp only [convolve, List.getElem_map, List.getElem_range]
    unfold convEntry
    rw [Finset.sum_eq_single k]
    · have : ([(1 : ℝ)].getD (k - k) 0) = 1 := by norm_num
      rw [if_pos (le_refl k), this, mul_one, List.getD_eq_getElem _ _ hk]
    · intro i _ hik
      by_cases hle : i ≤ k
      · have hki : k - i ≠ 0 := by omega
        have : ([(1 : ℝ)].getD (k - i) 0) = 0 := by
          cases h : k - i with
          | zero => exact absurd h hki
          | succ m => simp [List.getD]
        rw [if_pos hle, this, mul_zero]
      · rw [if_neg hle, mul_zero]
    · intro hk2
      exact absurd (Finset.mem_range.mpr hk) hk2

theorem zipWith_add_replicate_zero :
    ∀ (l : List ℝ) (m : ℕ), l.length = m →
      List.zipWith (· + ·) l (List.replicate m (0 : ℝ)) = l := by
  intro l
  induction l with
  | nil => intro m h; simp
  | cons x xs ih =>
    intro m h
    cases m with
    | zero => simp at h
    | succ m' =>
      have h' : xs.length = m' := by simpa using h
      simp [List.replicate_succ, ih m' h']

/-- Claim C1 counterexample: the claim says every value computed by the
notebook's code is produced by calling the external Datashader/HoloViews
libraries and that no notebook-defined function computes its result by an
algorithm of its own; but `time_series`, embedded purely from the notebook's
own arithmetic, determines different values from different numeric
arguments: with `S0 = 1` it returns `[1]` and with `S0 = 2` it returns
`[2]`, so its values are computed by the notebook's own code. -/
theorem claim1_counterexample :
    time_series 1 1 0 0 1 [0] ≠ time_series 1 1 0 0 2 [0] := by
  have h : ∀ S0 : ℝ, time_series 1 1 0 0 S0 [0] = [S0] := by
    intro S0
    simp [time_series, linspace, cumsum, cumsumFrom, List.range_succ, List.range_zero,
      Real.exp_zero]
  rw [h 1, h 2]
  simp only [ne_eq, List.cons.injEq, and_true]
  norm_num

/-- Claim C1 (amended): the helper functions do compute their results by
algorithms of their own, from their numeric arguments, using only numeric
primitives.  In particular `random_walk` with filter length `1` and zero
measurement noise computes exactly the convolution-smoothed cumulative
random walk the code describes: its x column is the cumulative sum of the
normal draws plus the deterministic sine wobble. -/
theorem claim1_theorem (n : ℕ) (ax ay : List ℝ) (hn : 1 ≤ n)
    (hax : ax.length = n) (hay : ay.length = n) :
    (random_walk n 1 ax ay (List.replicate n 0) (List.replicate n 0)).map
        Prod.fst
      = List.zipWith (· + ·) (cumsum ax) (wobble n 1) := by
  have hn' : n - 1 + 1 = n := by omega
  have hx1len : (List.zipWith (· + ·) (cumsum ax) (wobble n 1)).length = n := by
    rw [List.length_zipWith, cumsum_length, hax, wobble_length, hn',
      Nat.min_self]
  simp only [random_walk, Nat.cast_one, div_one, List.replicate_one,
    convolve_singleton_one]
  rw [zipWith_add_replicate_zero _ n hx1len,
    zipWith_add_replicate_zero _ n (by rw [cumsum_length, hay]),
    List.map_fst_zip]
  rw [hx1len, cumsum_length, hay]

/-- Witness for the amended claim C1 at `n = 1` with zero draws. -/
theorem claim1_witness :
    1 ≤ 1 ∧ [(0 : ℝ)].length = 1 ∧
      (random_walk 1 1 [0] [0] (List.replicate 1 0)
          (List.replicate 1 0)).map Prod.fst
        = List.zipWith (· + ·) (cumsum [0]) (wobble 1 1) :=
  ⟨by decide, rfl, claim1_theorem 1 [0] [0] (by decide) rfl rfl⟩
